import Mathlib

/-
Verification of the connection-protocol layer (ssh/connection.go): the
disconnect/error taxonomy, the metadata holder with copy-on-read buffers, the
raw connection adapter (SendMessage/ReceiveMessage/Disconnect/Close) and the
request drain helper, embedded shallowly. Go byte slices are references into
an explicit heap of buffers; the packet transport and network socket, whose
code lies outside this slice, are modelled from the spec as explicit state.
-/

namespace Ssh

/-- A byte sequence (the contents of a Go byte slice or packet). -/
abbrev Bytes := List Nat

/-- A whole transport packet. -/
abbrev Packet := List Nat

/-- An opaque I/O error: Go errors are modelled by their description. -/
abbrev IOError := String

/-- RejectionReason is external (owned by the multiplexer collaborator); the
core only stores and formats it, so it is an opaque numeric code whose textual
form (its String method) is supplied as a function where needed. -/
abbrev RejectionReason := Nat

/-- OpenChannelError (source lines 14-17): reason and message of a rejected
OpenChannel request. -/
structure OpenChannelError where
  Reason : RejectionReason
  Message : String

/-- OpenChannelError.Error (source lines 19-21):
fmt.Sprintf with format "ssh: rejected: %s (%s)" applied to e.Reason and
e.Message; the %s form of the reason is the supplied reasonText. -/
def OpenChannelError.errorString (reasonText : RejectionReason → String)
    (e : OpenChannelError) : String :=
  "ssh: rejected: " ++ reasonText e.Reason ++ " (" ++ e.Message ++ ")"

/-- DisconnectReason (source line 25): a plain numeric type (uint32); values
outside the named set are representable. -/
abbrev DisconnectReason := Nat

/-- Source line 28. -/
def HostNotAllowedToConnect : DisconnectReason := 1

/-- Source line 29. -/
def ProtocolError : DisconnectReason := 2

/-- Source line 30. -/
def KeyExchangeFailed : DisconnectReason := 3

/-- Source line 32 (4 is reserved for future use and bound to no name). -/
def MacError : DisconnectReason := 5

/-- Source line 33. -/
def CompressionError : DisconnectReason := 6

/-- Source line 34. -/
def ServiceNotAvailable : DisconnectReason := 7

/-- Source line 35. -/
def ProtocolVersionNotSupported : DisconnectReason := 8

/-- Source line 36. -/
def HostKeyNotVerifiable : DisconnectReason := 9

/-- Source line 37. -/
def ConnectionLost : DisconnectReason := 10

/-- Source line 38. -/
def ByApplication : DisconnectReason := 11

/-- Source line 39. -/
def TooManyConnections : DisconnectReason := 12

/-- Source line 40. -/
def AuthCancelledByUser : DisconnectReason := 13

/-- Source line 41. -/
def NoMoreAuthMethodsAvailable : DisconnectReason := 14

/-- Source line 42. -/
def IllegalUserName : DisconnectReason := 15

/-- The named DisconnectReason constants in source order (lines 28-42). -/
def disconnectReasonValues : List DisconnectReason :=
  [HostNotAllowedToConnect, ProtocolError, KeyExchangeFailed, MacError,
   CompressionError, ServiceNotAvailable, ProtocolVersionNotSupported,
   HostKeyNotVerifiable, ConnectionLost, ByApplication, TooManyConnections,
   AuthCancelledByUser, NoMoreAuthMethodsAvailable, IllegalUserName]

/-- DisconnectError (source lines 47-50). -/
structure DisconnectError where
  Reason : DisconnectReason
  Message : String

/-- DisconnectError.Error (source lines 52-54): fmt.Sprintf with format
"ssh: disconnect, reason %d: %s"; %d renders the uint32 reason in decimal. -/
def DisconnectError.errorString (d : DisconnectError) : String :=
  "ssh: disconnect, reason " ++ toString d.Reason ++ ": " ++ d.Message

/-- Message (source lines 101-133): the closed marker interface over exactly 14
connection-protocol message kinds. The per-variant field layouts belong to the
external wire codec and no property here depends on them, so each variant is a
bare constructor. -/
inductive Message where
  | globalRequestMsg
  | globalRequestSuccessMsg
  | globalRequestFailureMsg
  | channelOpenMsg
  | channelOpenConfirmMsg
  | channelOpenFailureMsg
  | channelDataMsg
  | channelExtendedDataMsg
  | windowAdjustMsg
  | channelEOFMsg
  | channelRequestMsg
  | channelRequestSuccessMsg
  | channelRequestFailureMsg
  | channelCloseMsg
deriving DecidableEq

/-- Modelled from the spec: the result of the external decode step (the wire
codec is outside this slice). decode may yield any protocol message, of which
only the closed Message set satisfies the connection-message capability; a
value outside it is carried with its Go type description (what the %T verb
would print for it). -/
inductive Decoded where
  | conn (m : Message)
  | other (typeDesc : String)

/-- Modelled from the spec: the packet transport behind the adapter (the
handshakeTransport collaborator is outside this slice). Per the transport
boundary, writePacket durably writes one whole packet in call order and
surfaces opaque I/O errors; transport errors are fatal at this layer, so a
failed transport keeps failing. The state is the trace of packets written and
the sticky write error, if any. -/
structure handshakeTransport where
  written : List Packet
  writeError : Option IOError
deriving DecidableEq

/-- writePacket on the modelled transport: on a healthy transport the packet
is appended to the trace and nil is returned; on a failed transport the error
is returned and nothing is written. -/
def handshakeTransport.writePacket (t : handshakeTransport) (p : Packet) :
    handshakeTransport × Option IOError :=
  match t.writeError with
  | some e => (t, some e)
  | none => ({ t with written := t.written ++ [p] }, none)

/-- Modelled from the spec: the underlying network socket (net.Conn, outside
this slice). Close closes the socket and returns whatever result the socket
reports (double-close behavior is transport-defined, so the reported result is
part of the modelled state). -/
structure netConn where
  closed : Bool
  closeResult : Option IOError
deriving DecidableEq

/-- The socket's own close operation. -/
def netConn.Close (c : netConn) : netConn × Option IOError :=
  ({ c with closed := true }, c.closeResult)

/-- A heap of byte buffers: a Go byte-slice value is a reference (index) into
it, so aliasing and mutation are explicit. -/
structure Heap where
  bufs : List Bytes
deriving DecidableEq

/-- Reading the buffer a reference designates. -/
def Heap.read (h : Heap) (i : Nat) : Bytes := h.bufs.getD i []

/-- Mutating the buffer a reference designates (what a caller does to a
returned slice). -/
def Heap.write (h : Heap) (i : Nat) (v : Bytes) : Heap := ⟨h.bufs.set i v⟩

/-- Allocating a fresh buffer (Go make) holding the given contents; returns
the new heap and the fresh reference. -/
def Heap.alloc (h : Heap) (v : Bytes) : Heap × Nat := (⟨h.bufs ++ [v]⟩, h.bufs.length)

/-- dup (source lines 229-233): dst := make byte slice of len src; copy src
into it; return dst. A fresh buffer whose contents equal the source's. -/
def dup (h : Heap) (src : Nat) : Heap × Nat := h.alloc (h.read src)

/-- sshConn (source lines 220-227): socket handle plus the write-once metadata
fields; the byte-sequence fields are references into the heap. -/
structure sshConn where
  conn : netConn
  user : String
  sessionID : Nat
  clientVersion : Nat
  serverVersion : Nat
deriving DecidableEq

/-- sshConn.User (source lines 235-237). -/
def sshConn.User (c : sshConn) : String := c.user

/-- sshConn.SessionID (source lines 251-253): return dup(c.sessionID). -/
def sshConn.SessionID (c : sshConn) (h : Heap) : Heap × Nat := dup h c.sessionID

/-- sshConn.ClientVersion (source lines 255-257): return dup(c.clientVersion). -/
def sshConn.ClientVersion (c : sshConn) (h : Heap) : Heap × Nat := dup h c.clientVersion

/-- sshConn.ServerVersion (source lines 259-261): return dup(c.serverVersion). -/
def sshConn.ServerVersion (c : sshConn) (h : Heap) : Heap × Nat := dup h c.serverVersion

/-- sshConn.Close (source lines 243-245): return c.conn.Close(). -/
def sshConn.Close (c : sshConn) : sshConn × Option IOError :=
  let r := c.conn.Close
  ({ c with conn := r.1 }, r.2)

/-- connection (source lines 179-185): one transport handle and the embedded
sshConn. The embedded multiplexer carries no state any method modelled here
touches, so it is omitted. -/
structure connection where
  transport : handshakeTransport
  sshConn : sshConn
deriving DecidableEq

/-- connection.SendMessage (source lines 187-190): packet := Marshal(msg);
return c.transport.writePacket(packet). Marshal belongs to the external codec
and is passed in. -/
def connection.SendMessage (marshal : Message → Packet) (c : connection)
    (msg : Message) : connection × Option IOError :=
  let packet := marshal msg
  let r := c.transport.writePacket packet
  ({ c with transport := r.1 }, r.2)

/-- connection.Disconnect (source lines 209-212): marshal a disconnectMsg
holding the numeric reason and the message, and write it as one packet. The
disconnectMsg marshalling belongs to the external codec and is passed in. -/
def connection.Disconnect (marshalDisconnect : DisconnectReason → String → Packet)
    (c : connection) (reason : DisconnectReason) (message : String) :
    connection × Option IOError :=
  let packet := marshalDisconnect reason message
  let r := c.transport.writePacket packet
  ({ c with transport := r.1 }, r.2)

/-- connection.Close (source lines 214-216): return c.sshConn.conn.Close(). -/
def connection.Close (c : connection) : connection × Option IOError :=
  let r := c.sshConn.conn.Close
  ({ c with sshConn := { c.sshConn with conn := r.1 } }, r.2)

/-- The errors ReceiveMessage can return: the transport read error unchanged,
the decode error unchanged, or the not-a-valid-connection-message error with
the type description the %T verb printed. -/
inductive RecvError where
  | io (e : IOError)
  | decodeFail (e : String)
  | notConnMessage (typeDesc : String)
deriving DecidableEq

/-- What the %T verb prints for a nil interface value. In the source's
type-assertion statement the assertion's target variable shadows the decoded
value inside the failure branch, and a failed assertion leaves that variable
nil, so the %T verb there always sees nil. -/
def nilTypeDesc : String := "<nil>"

/-- connection.ReceiveMessage (source lines 192-207), with the outcome of the
blocking transport read passed in and decode supplied from the external codec.
The result mirrors the Go return shape (Message, error) as an option pair. -/
def connection.ReceiveMessage (decode : Packet → Except String Decoded)
    (readResult : Except IOError Packet) : Option Message × Option RecvError :=
  match readResult with
  | .error err => (none, some (.io err))
  | .ok packet =>
    match decode packet with
    | .error err => (none, some (.decodeFail err))
    | .ok (.conn m) => (some m, none)
    | .ok (.other _) => (none, some (.notConnMessage nilTypeDesc))

/-- Modelled from the spec: an out-of-band Request as delivered on the
multiplexer's notification stream, with its WantReply flag; its Reply(ok,
payload) operation answers it once. A stream is the finite list of requests
the producer delivers before closing it, and replies are recorded as events. -/
structure Request where
  Name : String
  WantReply : Bool
  Payload : Option Bytes
deriving DecidableEq

/-- One reply sent on a Request: the ok flag and the payload passed to Reply
(none is Go nil). -/
structure ReplyEvent where
  ok : Bool
  payload : Option Bytes
deriving DecidableEq

/-- DiscardRequests (source lines 170-176): for req := range in, if
req.WantReply then req.Reply(false, nil). Returns the replies sent, in order,
once the stream is exhausted. -/
def DiscardRequests : List Request → List ReplyEvent
  | [] => []
  | req :: rest =>
    (if req.WantReply then [⟨false, none⟩] else []) ++ DiscardRequests rest

/-- The copy-on-read contract of a byte-sequence getter g whose backing store
is the buffer at reference r: two successive calls return buffers distinct
from each other and from the backing buffer, both holding the stored contents,
and mutating the first returned buffer changes neither the second one nor the
internally retained value. -/
def FreshCopyGetter (g : Heap → Heap × Nat) (r : Nat) (h : Heap) : Prop :=
  (g h).2 ≠ r ∧ (g (g h).1).2 ≠ r ∧ (g h).2 ≠ (g (g h).1).2 ∧
  (g (g h).1).1.read (g h).2 = h.read r ∧
  (g (g h).1).1.read (g (g h).1).2 = h.read r ∧
  ∀ v : Bytes,
    ((g (g h).1).1.write (g h).2 v).read (g (g h).1).2 = (g (g h).1).1.read (g (g h).1).2 ∧
    ((g (g h).1).1.write (g h).2 v).read r = h.read r

/-- A concrete heap: three buffers backing the three metadata fields. -/
def heapW : Heap := ⟨[[1, 2], [3], [4, 5, 6]]⟩

/-- A concrete metadata holder over heapW. -/
def connW : sshConn :=
  { conn := { closed := false, closeResult := none },
    user := "u", sessionID := 0, clientVersion := 1, serverVersion := 2 }

/-- A concrete adapter over a healthy transport with an empty write trace. -/
def conn0 : connection :=
  { transport := { written := [], writeError := none },
    sshConn := connW }

/-- A concrete disconnectMsg marshalling (any deterministic one will do). -/
def marshalDisc0 : DisconnectReason → String → Packet := fun r _ => [1, r]

/-- A concrete Message marshalling (any deterministic one will do). -/
def marshal0 : Message → Packet := fun _ => [96]

/-- A concrete textual form for rejection reasons. -/
def reasonTextX : RejectionReason → String := fun _ => "prohibited"

end Ssh

namespace Ssh

/-- For every valid backing reference, dup returns a fresh buffer with the
stored contents; two dups alias neither each other nor the backing buffer, and
writing through the first leaves the second and the backing buffer intact. -/
theorem dup_freshCopy (h : Heap) (r : Nat) (hr : r < h.bufs.length) :
    FreshCopyGetter (fun hh => dup hh r) r h := by
  have hr1 : r < (h.bufs ++ [h.read r]).length := by
    simp only [List.length_append, List.length_cons, List.length_nil]
    omega
  have hread1 : Heap.read ⟨h.bufs ++ [h.read r]⟩ r = h.read r := by
    simp [Heap.read, List.getD, List.getElem?_append, hr]
  refine ⟨?_, ?_, ?_, ?_, ?_, ?_⟩
  · simp only [dup, Heap.alloc, Heap.read]
    omega
  · simp only [dup, Heap.alloc, Heap.read, List.length_append, List.length_cons,
      List.length_nil]
    omega
  · simp only [dup, Heap.alloc, Heap.read, List.length_append, List.length_cons,
      List.length_nil]
    omega
  · show Heap.read ⟨(h.bufs ++ [h.read r]) ++ [Heap.read ⟨h.bufs ++ [h.read r]⟩ r]⟩
        h.bufs.length = h.read r
    rw [hread1]
    have hlt : h.bufs.length < (h.bufs ++ [h.read r]).length := by
      simp only [List.length_append, List.length_cons, List.length_nil]
      omega
    simp [Heap.read, List.getD, List.getElem?_append, hlt, List.getElem?_concat_length]
    rw [List.getElem_append_right (Nat.le_refl _)]
    simp
  · show Heap.read ⟨(h.bufs ++ [h.read r]) ++ [Heap.read ⟨h.bufs ++ [h.read r]⟩ r]⟩
        (h.bufs ++ [h.read r]).length = h.read r
    rw [hread1]
    simp [Heap.read, List.getD, List.getElem?_concat_length]
    rw [List.getElem_append_right (Nat.le_add_right _ _)]
    simp
  · intro v
    constructor
    · show Heap.read
          (Heap.write ⟨(h.bufs ++ [h.read r]) ++ [Heap.read ⟨h.bufs ++ [h.read r]⟩ r]⟩
            h.bufs.length v) (h.bufs ++ [h.read r]).length
        = Heap.read ⟨(h.bufs ++ [h.read r]) ++ [Heap.read ⟨h.bufs ++ [h.read r]⟩ r]⟩
            (h.bufs ++ [h.read r]).length
      have hne : h.bufs.length ≠ (h.bufs ++ [h.read r]).length := by
        simp only [List.length_append, List.length_cons, List.length_nil]
        omega
      simp [Heap.read, Heap.write, List.getD, List.getElem?_set_ne hne]
      rw [List.getElem_append_right (Nat.le_add_right _ _),
        List.getElem_append_right (Nat.le_add_right _ _)]
      simp
    · show Heap.read
          (Heap.write ⟨(h.bufs ++ [h.read r]) ++ [Heap.read ⟨h.bufs ++ [h.read r]⟩ r]⟩
            h.bufs.length v) r
        = h.read r
      have hne : h.bufs.length ≠ r := by omega
      rw [hread1]
      simp only [Heap.read, Heap.write, List.getD, List.getElem?_set_ne hne]
      simp [List.getD, List.getElem?_append, hr, hr1]

/-- Claim C1 (code bug): after Disconnect on a healthy adapter returns
success, a subsequent SendMessage still returns success and writes its packet
to the transport right after the disconnect packet — the adapter rejects
nothing after a disconnect, contradicting the RawConn contract. -/
theorem disconnect_then_sendMessage_still_succeeds :
    (connection.Disconnect marshalDisc0 conn0 ByApplication "bye").2 = none ∧
    (connection.SendMessage marshal0
        (connection.Disconnect marshalDisc0 conn0 ByApplication "bye").1
        Message.channelEOFMsg).2 = none ∧
    (connection.SendMessage marshal0
        (connection.Disconnect marshalDisc0 conn0 ByApplication "bye").1
        Message.channelEOFMsg).1.transport.written
      = [marshalDisc0 ByApplication "bye", marshal0 Message.channelEOFMsg] :=
  ⟨rfl, rfl, rfl⟩

/-- Claim C2, counterexample: the Error string of an OpenChannelError is not
the bare "rejected: <reason> (<message>)" the claim states — at reason 1
(rendered "prohibited") and message "denied" the code produces a different
string (it carries an "ssh: " marker in front). -/
theorem openChannelError_not_bare_rejected_cex :
    OpenChannelError.errorString reasonTextX ⟨1, "denied"⟩
      ≠ "rejected: prohibited (denied)" ∧
    OpenChannelError.errorString reasonTextX ⟨1, "denied"⟩
      = "ssh: rejected: prohibited (denied)" := by
  constructor
  · decide
  · rfl

/-- Claim C2 (amended): for every reason, reason rendering and message, the
Error string of OpenChannelError is exactly "ssh: rejected: <reason>
(<message>)"; in particular its first characters are always "ssh: rejected: ". -/
theorem openChannelError_errorString_format
    (reasonText : RejectionReason → String) (r : RejectionReason) (m : String) :
    OpenChannelError.errorString reasonText ⟨r, m⟩
      = "ssh: rejected: " ++ reasonText r ++ " (" ++ m ++ ")" ∧
    (OpenChannelError.errorString reasonText ⟨r, m⟩).data.take "ssh: rejected: ".length
      = "ssh: rejected: ".data := by
  refine ⟨rfl, ?_⟩
  have hlen : "ssh: rejected: ".length = "ssh: rejected: ".data.length := rfl
  rw [hlen]
  show (("ssh: rejected: " ++ reasonText r ++ " (" ++ m ++ ")").data).take _ = _
  simp only [String.data_append, List.append_assoc]
  exact List.take_left _ _

/-- Claim C3, counterexample: the Error string of a DisconnectError is not the
bare "disconnect, reason <n>: <message>" the claim states — at reason 11 and
message "bye" the code produces "ssh: disconnect, reason 11: bye". -/
theorem disconnectError_not_bare_disconnect_cex :
    DisconnectError.errorString ⟨11, "bye"⟩ ≠ "disconnect, reason 11: bye" ∧
    DisconnectError.errorString ⟨11, "bye"⟩ = "ssh: disconnect, reason 11: bye" := by
  constructor
  · decide
  · rfl

/-- Claim C3 (amended): for every reason value and message, the Error string
of DisconnectError is exactly "ssh: disconnect, reason <decimal reason>:
<message>"; its first characters are always "ssh: disconnect, reason ". -/
theorem disconnectError_errorString_format (r : DisconnectReason) (m : String) :
    DisconnectError.errorString ⟨r, m⟩
      = "ssh: disconnect, reason " ++ toString r ++ ": " ++ m ∧
    (DisconnectError.errorString ⟨r, m⟩).data.take "ssh: disconnect, reason ".length
      = "ssh: disconnect, reason ".data := by
  refine ⟨rfl, ?_⟩
  have hlen : "ssh: disconnect, reason ".length = "ssh: disconnect, reason ".data.length := rfl
  rw [hlen]
  show (("ssh: disconnect, reason " ++ toString r ++ ": " ++ m).data).take _ = _
  simp only [String.data_append, List.append_assoc]
  exact List.take_left _ _

/-- Claim C4: each of SessionID, ClientVersion and ServerVersion returns, on
every call, a freshly allocated buffer equal in contents to the stored value;
the buffers of two calls alias neither each other nor the retained value, and
mutating one returned buffer changes neither the other nor the retained
value. -/
theorem metadata_getters_return_fresh_copies (h : Heap) (c : sshConn)
    (hs : c.sessionID < h.bufs.length)
    (hc : c.clientVersion < h.bufs.length)
    (hv : c.serverVersion < h.bufs.length) :
    FreshCopyGetter c.SessionID c.sessionID h ∧
    FreshCopyGetter c.ClientVersion c.clientVersion h ∧
    FreshCopyGetter c.ServerVersion c.serverVersion h :=
  ⟨dup_freshCopy h c.sessionID hs, dup_freshCopy h c.clientVersion hc,
   dup_freshCopy h c.serverVersion hv⟩

/-- Claim C4 at a concrete metadata holder with valid backing references. -/
theorem metadata_getters_return_fresh_copies_witness :
    connW.sessionID < heapW.bufs.length ∧
    FreshCopyGetter connW.SessionID connW.sessionID heapW ∧
    FreshCopyGetter connW.ClientVersion connW.clientVersion heapW ∧
    FreshCopyGetter connW.ServerVersion connW.serverVersion heapW :=
  ⟨by decide,
   metadata_getters_return_fresh_copies heapW connW (by decide) (by decide) (by decide)⟩

/-- Claim C5 (code bug): when the decoded value is not a connection message,
the error ReceiveMessage returns always carries the type description of the
nil interface value — the variable the failed type assertion shadows — and
never the unexpected value's own type: two different unexpected types yield
the same error. -/
theorem receiveMessage_notConn_error_carries_nil_type :
    connection.ReceiveMessage (fun _ => .ok (.other "*ssh.kexInitMsg")) (.ok [20])
      = (none, some (.notConnMessage nilTypeDesc)) ∧
    nilTypeDesc = "<nil>" ∧ nilTypeDesc ≠ "*ssh.kexInitMsg" ∧
    connection.ReceiveMessage (fun _ => .ok (.other "*ssh.kexDHInitMsg")) (.ok [30])
      = connection.ReceiveMessage (fun _ => .ok (.other "*ssh.kexInitMsg")) (.ok [20]) :=
  ⟨rfl, rfl, by decide, rfl⟩

/-- Claim C6, counterexample: the named DisconnectReason constants number 14,
not 15 — their values are exactly 1 through 3 and 5 through 15, and a list of
those values has length 14. -/
theorem disconnectReason_count_is_fourteen_cex :
    disconnectReasonValues = [1, 2, 3, 5, 6, 7, 8, 9, 10, 11, 12, 13, 14, 15] ∧
    disconnectReasonValues.length = 14 ∧ disconnectReasonValues.length ≠ 15 := by
  decide

/-- Claim C6 (amended): the DisconnectReason constants form a closed
enumeration of 14 numeric codes bound exactly as RFC 4253 names them
(HostNotAllowedToConnect = 1 through IllegalUserName = 15), whose value set is
exactly 1..3 together with 5..15, value 4 being reserved and bound to no
name. -/
theorem disconnectReason_closed_enumeration :
    HostNotAllowedToConnect = 1 ∧ ProtocolError = 2 ∧ KeyExchangeFailed = 3 ∧
    MacError = 5 ∧ CompressionError = 6 ∧ ServiceNotAvailable = 7 ∧
    ProtocolVersionNotSupported = 8 ∧ HostKeyNotVerifiable = 9 ∧ ConnectionLost = 10 ∧
    ByApplication = 11 ∧ TooManyConnections = 12 ∧ AuthCancelledByUser = 13 ∧
    NoMoreAuthMethodsAvailable = 14 ∧ IllegalUserName = 15 ∧
    disconnectReasonValues.length = 14 ∧
    (4 : DisconnectReason) ∉ disconnectReasonValues ∧
    ∀ v : Nat,
      v ∈ disconnectReasonValues ↔ ((1 ≤ v ∧ v ≤ 3) ∨ (5 ≤ v ∧ v ≤ 15)) := by
  refine ⟨rfl, rfl, rfl, rfl, rfl, rfl, rfl, rfl, rfl, rfl, rfl, rfl, rfl, rfl, rfl,
    by decide, ?_⟩
  intro v
  simp [disconnectReasonValues, HostNotAllowedToConnect, ProtocolError, KeyExchangeFailed,
    MacError, CompressionError, ServiceNotAvailable, ProtocolVersionNotSupported,
    HostKeyNotVerifiable, ConnectionLost, ByApplication, TooManyConnections,
    AuthCancelledByUser, NoMoreAuthMethodsAvailable, IllegalUserName]
  omega

/-- Claim C7: DiscardRequests consumes the whole stream, replying exactly once,
negatively and with nil payload, to each request whose WantReply flag is set
and to no other; every reply it sends is negative with nil payload, and on a
stream of N requests all wanting a reply it sends exactly N replies. -/
theorem discardRequests_replies_exactly_to_wantReply (reqs : List Request) :
    DiscardRequests reqs
      = (reqs.filter (fun r => r.WantReply)).map (fun _ => ⟨false, none⟩) ∧
    (DiscardRequests reqs).length = (reqs.filter (fun r => r.WantReply)).length ∧
    (DiscardRequests reqs).all (fun e => !e.ok && e.payload.isNone) = true ∧
    (DiscardRequests (reqs.map (fun r => { r with WantReply := true }))).length
      = reqs.length := by
  have key : ∀ l : List Request,
      DiscardRequests l
        = (l.filter (fun r => r.WantReply)).map (fun _ => (⟨false, none⟩ : ReplyEvent)) := by
    intro l
    induction l with
    | nil => rfl
    | cons req rest ih =>
      by_cases hw : req.WantReply
      · simp [DiscardRequests, List.filter, hw, ih]
      · simp [DiscardRequests, List.filter, hw, ih]
  refine ⟨key reqs, ?_, ?_, ?_⟩
  · rw [key reqs]
    simp
  · rw [key reqs]
    simp [List.all_eq_true]
  · rw [key _]
    simp [List.filter_map]

/-- Claim C8: SendMessage writes exactly the marshalling of its message as one
packet through writePacket and returns writePacket's result unchanged: on a
healthy transport the packet is appended to the write trace and nil is
returned; on a failed transport the transport's error is returned as is and
nothing is written. -/
theorem sendMessage_writes_single_marshalled_packet
    (marshal : Message → Packet) (c : connection) (msg : Message) :
    connection.SendMessage marshal c msg
      = ({ c with transport := (c.transport.writePacket (marshal msg)).1 },
         (c.transport.writePacket (marshal msg)).2) ∧
    connection.SendMessage marshal
        { c with transport := { written := c.transport.written, writeError := none } } msg
      = ({ c with transport := { written := c.transport.written ++ [marshal msg],
                                 writeError := none } }, none) ∧
    ∀ e : IOError,
      connection.SendMessage marshal
          { c with transport := { written := c.transport.written, writeError := some e } } msg
        = ({ c with transport := { written := c.transport.written, writeError := some e } },
           some e) :=
  ⟨rfl, rfl, fun _ => rfl⟩

/-- Claim C9: Close on the connection facade closes the underlying network
socket directly and returns the socket close operation's own result; it leaves
the packet transport untouched and behaves the same after a prior Disconnect,
whatever the adapter state. -/
theorem close_delegates_to_socket_close
    (c : connection) (marshalDisconnect : DisconnectReason → String → Packet)
    (reason : DisconnectReason) (message : String) :
    connection.Close c
      = ({ c with sshConn := { c.sshConn with
             conn := { c.sshConn.conn with closed := true } } },
         c.sshConn.conn.closeResult) ∧
    (connection.Close c).2 = (netConn.Close c.sshConn.conn).2 ∧
    (connection.Close c).1.transport = c.transport ∧
    (connection.Close (connection.Disconnect marshalDisconnect c reason message).1).2
      = c.sshConn.conn.closeResult :=
  ⟨rfl, rfl, rfl, rfl⟩

/-- Claim C10: ReceiveMessage never returns both a message and an error — for
every decode function and every outcome of the transport read, exactly one
side of the returned pair is set. -/
theorem receiveMessage_never_both_message_and_error
    (decode : Packet → Except String Decoded)
    (readResult : Except IOError Packet) :
    ((connection.ReceiveMessage decode readResult).1.isSome
      = (connection.ReceiveMessage decode readResult).2.isNone) ∧
    ¬((connection.ReceiveMessage decode readResult).1.isSome = true ∧
      (connection.ReceiveMessage decode readResult).2.isSome = true) := by
  constructor
  · cases readResult with
    | error e => rfl
    | ok p =>
      cases hd : decode p with
      | error e => simp [connection.ReceiveMessage, hd]
      | ok d =>
        cases d with
        | conn m => simp [connection.ReceiveMessage, hd]
        | other t => simp [connection.ReceiveMessage, hd]
  · cases readResult with
    | error e => simp [connection.ReceiveMessage]
    | ok p =>
      cases hd : decode p with
      | error e => simp [connection.ReceiveMessage, hd]
      | ok d =>
        cases d with
        | conn m => simp [connection.ReceiveMessage, hd]
        | other t => simp [connection.ReceiveMessage, hd]

end Ssh
